import Mathlib

/-!
Verification of the 2D Euler fluid simulator in `src/src/main.rs`.

The simulator's `f64` arithmetic is modelled over `ℚ` (exact field
arithmetic); every constant in the source is a finite decimal, hence an
exact rational.  A grid of cells is modelled as a total function
`ℕ → ℕ → Cell` indexed `[y][x]`, with the `width`/`height` that the Rust
code obtains from `grid.len()` / `grid[0].len()` passed explicitly.
Functions of the source that can panic on out-of-bounds indexing are
modelled as `Option`-valued, returning `none` exactly on the inputs whose
index accesses are out of bounds.
-/

namespace FluidSim

/-- `AIR_DENSITY = 1.225` from `src/src/main.rs`. -/
def AIR_DENSITY : ℚ := 1225 / 1000

/-- `GAMMA_AIR = 1.4` from `src/src/main.rs`. -/
def GAMMA_AIR : ℚ := 14 / 10

/-- `AIR_ENERGY = 1000.0` from `src/src/main.rs`. -/
def AIR_ENERGY : ℚ := 1000

/-- The `Cell` struct of `src/src/main.rs`. -/
structure Cell where
  density : ℚ
  momentum_x : ℚ
  momentum_y : ℚ
  energy : ℚ
deriving DecidableEq

/-- A grid is indexed `grid y x` (row `y`, column `x`), mirroring the Rust
`grid[y][x]`.  Dimensions are carried separately. -/
abbrev Grid := ℕ → ℕ → Cell

/-- The ambient cell used by `initialize_grid` for every non-center cell. -/
def ambient_cell : Cell :=
  { density := AIR_DENSITY, momentum_x := 0, momentum_y := 0, energy := AIR_ENERGY }

/-- The cell contents produced by `initialize_grid width height`: all ambient,
except the center `(height/2, width/2)` whose density is overwritten to `10.0`
and energy to `1000.0` (momenta keep their ambient value `0`). -/
def init_cells (width height : ℕ) : Grid := fun y x =>
  if y = height / 2 ∧ x = width / 2 then
    { density := 10, momentum_x := 0, momentum_y := 0, energy := 1000 }
  else ambient_cell

/-- `initialize_grid` of `src/src/main.rs`.  The Rust code builds an
uncheckedly sized `height × width` vector and then writes
`grid[height/2][width/2]`; that indexing panics exactly when `height = 0` or
`width = 0` (since `n/2 < n` iff `1 ≤ n`), modelled as `none`.  There is no
other validation of the dimensions. -/
def initialize_grid (width height : ℕ) : Option Grid :=
  if height / 2 < height ∧ width / 2 < width then some (init_cells width height)
  else none

/-- `calculate_pressure` of `src/src/main.rs`. -/
def calculate_pressure (cell : Cell) (gamma : ℚ) : ℚ :=
  let kinetic_energy := (cell.momentum_x ^ 2 + cell.momentum_y ^ 2) / (2 * cell.density)
  (gamma - 1) * (cell.energy - kinetic_energy)

/-- `calculate_fluxes` of `src/src/main.rs`.  The Rust loop clones the grid
and then, for `1 ≤ y < height-1`, `1 ≤ x < width-1`, skipping solid cells,
rewrites `new_grid[y][x]` reading only the old grid (each cell is written in
its own iteration only, and the `-=` reads the still-unmodified clone), so
the update is pointwise. -/
def calculate_fluxes (grid : Grid) (solid : ℕ → ℕ → Bool) (gamma : ℚ)
    (width height : ℕ) : Grid := fun y x =>
  if 1 ≤ y ∧ y < height - 1 ∧ 1 ≤ x ∧ x < width - 1 ∧ solid y x = false then
    let pressure := calculate_pressure (grid y x) gamma
    let pressure_left := calculate_pressure (grid y (x - 1)) gamma
    let pressure_right := calculate_pressure (grid y (x + 1)) gamma
    let pressure_up := calculate_pressure (grid (y - 1) x) gamma
    let pressure_down := calculate_pressure (grid (y + 1) x) gamma
    let pressure_flux_x := (pressure_right - pressure_left) / 2
    let pressure_flux_y := (1 / 10) * (pressure_down - pressure_up) / 2
    let density_flux_x := ((grid y (x + 1)).density - (grid y (x - 1)).density) / 2
    let density_flux_y := ((grid (y + 1) x).density - (grid (y - 1) x).density) / 2
    let avg_density := ((grid y x).density + (grid (y - 1) x).density
      + (grid (y + 1) x).density + (grid y (x - 1)).density + (grid y (x + 1)).density) / 5
    let avg_energy := ((grid y x).energy + (grid (y - 1) x).energy
      + (grid (y + 1) x).energy + (grid y (x - 1)).energy + (grid y (x + 1)).energy) / 5
    { density := avg_density,
      momentum_x := (grid y x).momentum_x - (pressure_flux_x + density_flux_x * pressure / 2),
      momentum_y := (grid y x).momentum_y - (pressure_flux_y + density_flux_y * pressure / 2),
      energy := avg_energy }
  else grid y x

/-- `add_fluid_source` of `src/src/main.rs`.  `height` models `grid.len()`;
`width` is the inlet width parameter.  For `center_y - width/2 ≤ y <
center_y + width/2` (with `center_y = height/2`) the row's column-0 cell gets
`density += emission_rate`, `momentum_x = fluid_velocity` and
`energy += AIR_ENERGY + 100.0`; rows are updated independently, so the loop is
pointwise.  The model is faithful to the Rust source only on the in-range
regime `width/2 ≤ height/2` (outside it the `usize` subtraction underflows:
a debug build panics, a release build wraps to an empty range) and
`height/2 + width/2 ≤ height` (outside it the row indexing panics); every
theorem about this definition carries both bounds as hypotheses. -/
def add_fluid_source (grid : Grid) (height width : ℕ)
    (emission_rate fluid_velocity : ℚ) : Grid := fun y x =>
  if (height / 2 - width / 2 ≤ y ∧ y < height / 2 + width / 2) ∧ x = 0 then
    { density := (grid y 0).density + emission_rate,
      momentum_x := fluid_velocity,
      momentum_y := (grid y 0).momentum_y,
      energy := (grid y 0).energy + (AIR_ENERGY + 100) }
  else grid y x

/-- `create_solid_object` of `src/src/main.rs`.  The Rust code allocates a
`height × width` mask of `false` and sets `solid_object[y][x] = true` for the
fixed ranges `y ∈ 20..40`, `x ∈ 30..50`, independent of the grid size; that
indexing goes out of bounds (panics, modelled `none`) exactly when
`height < 40` or `width < 50`. -/
def create_solid_object (width height : ℕ) : Option (ℕ → ℕ → Bool) :=
  if 50 ≤ width ∧ 40 ≤ height then
    some (fun y x => decide ((20 ≤ y ∧ y < 40) ∧ (30 ≤ x ∧ x < 50)))
  else none

/-- Functional single-cell write, used to model the sequential in-place
mutations of `apply_boundary_conditions`. -/
def setCell (g : Grid) (y x : ℕ) (c : Cell) : Grid := fun y' x' =>
  if y' = y ∧ x' = x then c else g y' x'

/-- One iteration of the first loop of `apply_boundary_conditions`
(left/right boundaries) for row `y`, with the four assignments performed in
source order. -/
def lrStep (width : ℕ) (g : Grid) (y : ℕ) : Grid :=
  let g1 := setCell g y 0 { g y 0 with momentum_y := 0 }
  let g2 := setCell g1 y (width - 1) { g1 y (width - 1) with momentum_y := 0 }
  let g3 := setCell g2 y 0 { g2 y 0 with momentum_x := (g2 y 1).momentum_x }
  setCell g3 y (width - 1)
    { g3 y (width - 1) with momentum_x := (g3 y (width - 2)).momentum_x }

/-- One iteration of the second loop of `apply_boundary_conditions`
(top/bottom boundaries) for column `x`, with the six assignments performed in
source order. -/
def tbStep (height : ℕ) (g : Grid) (x : ℕ) : Grid :=
  let g1 := setCell g 0 x { g 0 x with momentum_y := 0 }
  let g2 := setCell g1 (height - 1) x { g1 (height - 1) x with momentum_y := 0 }
  let g3 := setCell g2 0 x { g2 0 x with density := (g2 1 x).density }
  let g4 := setCell g3 (height - 1) x
    { g3 (height - 1) x with density := (g3 (height - 2) x).density }
  let g5 := setCell g4 0 x { g4 0 x with energy := (g4 1 x).energy }
  setCell g5 (height - 1) x
    { g5 (height - 1) x with energy := (g5 (height - 2) x).energy }

/-- `apply_boundary_conditions` of `src/src/main.rs`: the row loop over
`0..height`, then the column loop over `0..width`, each mutating in place. -/
def apply_boundary_conditions (width height : ℕ) (g : Grid) : Grid :=
  (List.range width).foldl (tbStep height) ((List.range height).foldl (lrStep width) g)

/-- Modelled from the spec: the interactive injection operation
(`inject(x, y, densityDelta, velocityDelta)`) described in §4.7/§6/§8 of the
specification is not implemented in `src/src/main.rs` (the event loop handles
only `Quit`/`Escape`); following the spec's words it applies direct additive
writes `density += amount`, `momentum += (amount_x, amount_y)` at the single
addressed cell. -/
def inject (grid : Grid) (x y : ℕ) (density_delta : ℚ) (velocity_delta : ℚ × ℚ) : Grid :=
  fun y' x' =>
    if y' = y ∧ x' = x then
      { density := (grid y x).density + density_delta,
        momentum_x := (grid y x).momentum_x + velocity_delta.1,
        momentum_y := (grid y x).momentum_y + velocity_delta.2,
        energy := (grid y x).energy }
    else grid y' x'

/-! ## Helper lemmas -/

/-- A fold whose function fixes the accumulator leaves it unchanged. -/
theorem foldl_const_fixed {α : Type} (f : Grid → α → Grid) (g : Grid) (l : List α)
    (h : ∀ a, f g a = g) : l.foldl f g = g := by
  induction l with
  | nil => rfl
  | cons a l ih => rw [List.foldl_cons, h a, ih]

/-- Overwriting a cell of a constant grid with the same cell value keeps the
grid constant. -/
theorem setCell_const (c c' : Cell) (y x : ℕ) (h : c' = c) :
    setCell (fun _ _ => c) y x c' = fun _ _ => c := by
  funext y' x'
  unfold setCell
  split
  · exact h
  · rfl

/-- Reading the cell just written. -/
theorem setCell_at (g : Grid) (y x : ℕ) (c : Cell) : setCell g y x c y x = c := by
  unfold setCell
  rw [if_pos ⟨rfl, rfl⟩]

/-- Reading any other cell. -/
theorem setCell_not (g : Grid) (y x : ℕ) (c : Cell) (y' x' : ℕ)
    (h : ¬(y' = y ∧ x' = x)) : setCell g y x c y' x' = g y' x' := by
  unfold setCell
  rw [if_neg h]

/-- `lrStep` for row `y` does not touch any other row. -/
theorem lrStep_frame (width : ℕ) (g : Grid) (y y' x' : ℕ) (h : y' ≠ y) :
    lrStep width g y y' x' = g y' x' := by
  have hn : ∀ (x : ℕ) (c : Cell) (g' : Grid), setCell g' y x c y' x' = g' y' x' := by
    intro x c g'
    exact setCell_not g' y x c y' x' (fun hc => h hc.1)
  unfold lrStep
  dsimp only
  rw [hn, hn, hn, hn]

/-- `tbStep` for column `x` does not touch any other column. -/
theorem tbStep_frame (height : ℕ) (g : Grid) (x y' x' : ℕ) (h : x' ≠ x) :
    tbStep height g x y' x' = g y' x' := by
  have hn : ∀ (y : ℕ) (c : Cell) (g' : Grid), setCell g' y x c y' x' = g' y' x' := by
    intro y c g'
    exact setCell_not g' y x c y' x' (fun hc => h hc.2)
  unfold tbStep
  dsimp only
  rw [hn, hn, hn, hn, hn, hn]

/-- `lrStep` for row `y`, read back on row `y`, depends only on row `y` of its
input. -/
theorem lrStep_congr_row (width : ℕ) (s g : Grid) (y : ℕ)
    (hrow : ∀ x, s y x = g y x) (x : ℕ) :
    lrStep width s y y x = lrStep width g y y x := by
  unfold lrStep setCell
  dsimp only
  simp only [hrow]

/-- `tbStep` for column `x`, read back on column `x`, depends only on column
`x` of its input. -/
theorem tbStep_congr_col (height : ℕ) (s g : Grid) (x : ℕ)
    (hcol : ∀ y, s y x = g y x) (y : ℕ) :
    tbStep height s x y x = tbStep height g x y x := by
  unfold tbStep setCell
  dsimp only
  simp only [hcol]

/-- Rows not yet reached by the left/right pass are untouched. -/
theorem lrFold_out (width : ℕ) (g : Grid) (n y x : ℕ) (h : n ≤ y) :
    (List.range n).foldl (lrStep width) g y x = g y x := by
  induction n with
  | zero => rfl
  | succ m ih =>
    rw [List.range_succ, List.foldl_append, List.foldl_cons, List.foldl_nil]
    rw [lrStep_frame width _ m y x (by omega)]
    exact ih (by omega)

/-- The left/right pass acts on each row exactly once, reading the original
grid. -/
theorem lrFold_in (width : ℕ) (g : Grid) (n y x : ℕ) (h : y < n) :
    (List.range n).foldl (lrStep width) g y x = lrStep width g y y x := by
  induction n with
  | zero => omega
  | succ m ih =>
    rw [List.range_succ, List.foldl_append, List.foldl_cons, List.foldl_nil]
    by_cases hy : y = m
    · subst hy
      exact lrStep_congr_row width _ g y (fun x' => lrFold_out width g y y x' le_rfl) x
    · rw [lrStep_frame width _ m y x hy]
      exact ih (by omega)

/-- Columns not yet reached by the top/bottom pass are untouched. -/
theorem tbFold_out (height : ℕ) (g : Grid) (n y x : ℕ) (h : n ≤ x) :
    (List.range n).foldl (tbStep height) g y x = g y x := by
  induction n with
  | zero => rfl
  | succ m ih =>
    rw [List.range_succ, List.foldl_append, List.foldl_cons, List.foldl_nil]
    rw [tbStep_frame height _ m y x (by omega)]
    exact ih (by omega)

/-- The top/bottom pass acts on each column exactly once, reading the grid as
left by the left/right pass. -/
theorem tbFold_in (height : ℕ) (g : Grid) (n y x : ℕ) (h : x < n) :
    (List.range n).foldl (tbStep height) g y x = tbStep height g x y x := by
  induction n with
  | zero => omega
  | succ m ih =>
    rw [List.range_succ, List.foldl_append, List.foldl_cons, List.foldl_nil]
    by_cases hx : x = m
    · subst hx
      exact tbStep_congr_col height _ g x (fun y' => tbFold_out height g x y' x le_rfl) y
    · rw [tbStep_frame height _ m y x hx]
      exact ih (by omega)

/-- The left/right row action zeroes the vertical momentum of the column-0
cell of its row. -/
theorem lrStep_left_my (width : ℕ) (g : Grid) (y : ℕ) (hw : 2 ≤ width) :
    (lrStep width g y y 0).momentum_y = 0 := by
  unfold lrStep
  dsimp only
  rw [setCell_not _ _ _ _ _ _ (show ¬(y = y ∧ 0 = width - 1) by omega)]
  rw [setCell_at]
  dsimp only
  rw [setCell_not _ _ _ _ _ _ (show ¬(y = y ∧ 0 = width - 1) by omega)]
  rw [setCell_at]

/-- The left/right row action zeroes the vertical momentum of the
column-`width-1` cell of its row. -/
theorem lrStep_right_my (width : ℕ) (g : Grid) (y : ℕ) (hw : 2 ≤ width) :
    (lrStep width g y y (width - 1)).momentum_y = 0 := by
  unfold lrStep
  dsimp only
  rw [setCell_at]
  dsimp only
  rw [setCell_not _ _ _ _ _ _ (show ¬(y = y ∧ width - 1 = 0) by omega)]
  rw [setCell_at]

/-- The top/bottom column action zeroes the vertical momentum of the row-0
cell of its column. -/
theorem tbStep_top_my (height : ℕ) (s : Grid) (x : ℕ) (hh : 2 ≤ height) :
    (tbStep height s x 0 x).momentum_y = 0 := by
  unfold tbStep
  dsimp only
  rw [setCell_not _ _ _ _ _ _ (show ¬(0 = height - 1 ∧ x = x) by omega)]
  rw [setCell_at]
  dsimp only
  rw [setCell_not _ _ _ _ _ _ (show ¬(0 = height - 1 ∧ x = x) by omega)]
  rw [setCell_at]
  dsimp only
  rw [setCell_not _ _ _ _ _ _ (show ¬(0 = height - 1 ∧ x = x) by omega)]
  rw [setCell_at]

/-- The top/bottom column action zeroes the vertical momentum of the
row-`height-1` cell of its column. -/
theorem tbStep_bot_my (height : ℕ) (s : Grid) (x : ℕ) (hh : 2 ≤ height) :
    (tbStep height s x (height - 1) x).momentum_y = 0 := by
  unfold tbStep
  dsimp only
  rw [setCell_at]
  dsimp only
  rw [setCell_not _ _ _ _ _ _ (show ¬(height - 1 = 0 ∧ x = x) by omega)]
  rw [setCell_at]
  dsimp only
  rw [setCell_not _ _ _ _ _ _ (show ¬(height - 1 = 0 ∧ x = x) by omega)]
  rw [setCell_at]

/-- The top/bottom column action leaves rows other than `0` and `height-1`
of its column untouched. -/
theorem tbStep_mid (height : ℕ) (s : Grid) (x y : ℕ) (h0 : y ≠ 0)
    (h1 : y ≠ height - 1) : tbStep height s x y x = s y x := by
  unfold tbStep
  dsimp only
  rw [setCell_not _ _ _ _ _ _ (show ¬(y = height - 1 ∧ x = x) by tauto)]
  rw [setCell_not _ _ _ _ _ _ (show ¬(y = 0 ∧ x = x) by tauto)]
  rw [setCell_not _ _ _ _ _ _ (show ¬(y = height - 1 ∧ x = x) by tauto)]
  rw [setCell_not _ _ _ _ _ _ (show ¬(y = 0 ∧ x = x) by tauto)]
  rw [setCell_not _ _ _ _ _ _ (show ¬(y = height - 1 ∧ x = x) by tauto)]
  rw [setCell_not _ _ _ _ _ _ (show ¬(y = 0 ∧ x = x) by tauto)]

/-- After the top/bottom column action, the row-0 cell's density is the
input's row-1 density. -/
theorem tbStep_top_density (height : ℕ) (s : Grid) (x : ℕ) (hh : 2 ≤ height) :
    (tbStep height s x 0 x).density = (s 1 x).density := by
  unfold tbStep
  dsimp only
  rw [setCell_not _ _ _ _ _ _ (show ¬(0 = height - 1 ∧ x = x) by omega)]
  rw [setCell_at]
  dsimp only
  rw [setCell_not _ _ _ _ _ _ (show ¬(0 = height - 1 ∧ x = x) by omega)]
  rw [setCell_at]
  dsimp only
  by_cases hh2 : height = 2
  · subst hh2
    norm_num
    rw [setCell_at]
    dsimp only
    rw [setCell_not _ _ _ _ _ _ (show ¬((1 : ℕ) = 0 ∧ x = x) by omega)]
  · rw [setCell_not _ _ _ _ _ _ (show ¬((1 : ℕ) = height - 1 ∧ x = x) by omega)]
    rw [setCell_not _ _ _ _ _ _ (show ¬((1 : ℕ) = 0 ∧ x = x) by omega)]

/-- After the top/bottom column action with `height ≥ 3`, the
row-`height-1` cell's density is the input's row-`height-2` density. -/
theorem tbStep_bot_density (height : ℕ) (s : Grid) (x : ℕ) (hh : 3 ≤ height) :
    (tbStep height s x (height - 1) x).density = (s (height - 2) x).density := by
  unfold tbStep
  dsimp only
  rw [setCell_at]
  dsimp only
  rw [setCell_not _ _ _ _ _ _ (show ¬(height - 1 = 0 ∧ x = x) by omega)]
  rw [setCell_at]
  dsimp only
  rw [setCell_not _ _ _ _ _ _ (show ¬(height - 2 = 0 ∧ x = x) by omega)]
  rw [setCell_not _ _ _ _ _ _ (show ¬(height - 2 = height - 1 ∧ x = x) by omega)]
  rw [setCell_not _ _ _ _ _ _ (show ¬(height - 2 = 0 ∧ x = x) by omega)]

/-- After the top/bottom column action with `height = 2`, the bottom (row 1)
cell's density is the input's row-1 density. -/
theorem tbStep_bot_density_two (s : Grid) (x : ℕ) :
    (tbStep 2 s x 1 x).density = (s 1 x).density := by
  unfold tbStep
  norm_num
  rw [setCell_at]
  dsimp only
  rw [setCell_not _ _ _ _ _ _ (show ¬((1 : ℕ) = 0 ∧ x = x) by omega)]
  rw [setCell_at]
  dsimp only
  rw [setCell_at]
  dsimp only
  rw [setCell_at]
  dsimp only
  rw [setCell_not _ _ _ _ _ _ (show ¬((1 : ℕ) = 0 ∧ x = x) by omega)]

/-- The flux step fixes every constant grid: with a uniform field all
pressure and density gradients vanish and the five-point averages reproduce
the cell. -/
theorem calculate_fluxes_const (c : Cell) (solid : ℕ → ℕ → Bool) (gamma : ℚ)
    (width height : ℕ) :
    calculate_fluxes (fun _ _ => c) solid gamma width height = fun _ _ => c := by
  obtain ⟨d, mx, my, e⟩ := c
  funext y x
  unfold calculate_fluxes
  split
  · dsimp only
    simp only [Cell.mk.injEq]
    exact ⟨by ring, by ring, by ring, by ring⟩
  · rfl

/-- The left/right boundary pass fixes a constant grid whose vertical
momentum is zero. -/
theorem lrStep_const (width : ℕ) (c : Cell) (hmy : c.momentum_y = 0) (y : ℕ) :
    lrStep width (fun _ _ => c) y = fun _ _ => c := by
  obtain ⟨d, mx, my, e⟩ := c
  replace hmy : my = 0 := hmy
  subst hmy
  simp only [lrStep, setCell_const]

/-- The top/bottom boundary pass fixes a constant grid whose vertical
momentum is zero. -/
theorem tbStep_const (height : ℕ) (c : Cell) (hmy : c.momentum_y = 0) (x : ℕ) :
    tbStep height (fun _ _ => c) x = fun _ _ => c := by
  obtain ⟨d, mx, my, e⟩ := c
  replace hmy : my = 0 := hmy
  subst hmy
  simp only [tbStep, setCell_const]

/-- The boundary enforcer fixes a constant grid whose vertical momentum is
zero. -/
theorem apply_boundary_conditions_const (width height : ℕ) (c : Cell)
    (hmy : c.momentum_y = 0) :
    apply_boundary_conditions width height (fun _ _ => c) = fun _ _ => c := by
  unfold apply_boundary_conditions
  rw [foldl_const_fixed _ _ _ (lrStep_const width c hmy),
    foldl_const_fixed _ _ _ (tbStep_const height c hmy)]

/-! ## C1: the flux step never writes solid or border cells -/

/-- C1: for every grid, solid mask, `gamma` and dimensions, the cell returned
by `calculate_fluxes` at any solid cell and at any border cell
(`x = 0`, `x = width-1`, `y = 0` or `y = height-1`) is exactly the input cell
(density, momentum_x, momentum_y and energy all equal). -/
theorem calculate_fluxes_frame (grid : Grid) (solid : ℕ → ℕ → Bool) (gamma : ℚ)
    (width height : ℕ) (y x : ℕ) (_hy : y < height) (_hx : x < width)
    (h : solid y x = true ∨ x = 0 ∨ x = width - 1 ∨ y = 0 ∨ y = height - 1) :
    calculate_fluxes grid solid gamma width height y x = grid y x := by
  unfold calculate_fluxes
  rw [if_neg]
  rintro ⟨h1, h2, h3, h4, h5⟩
  rcases h with h | h | h | h | h
  · rw [h] at h5; cases h5
  · omega
  · omega
  · omega
  · omega

/-- Witness for C1: on a concrete non-trivial 5×5 grid with the single solid
cell (2,2), the flux step leaves that solid cell untouched. -/
theorem calculate_fluxes_frame_witness :
    calculate_fluxes (fun y x => Cell.mk ((y : ℚ) + 1) (x : ℚ) (y : ℚ) ((x : ℚ) + 2))
        (fun y x => decide (y = 2 ∧ x = 2)) GAMMA_AIR 5 5 2 2
      = (fun y x => Cell.mk ((y : ℚ) + 1) (x : ℚ) (y : ℚ) ((x : ℚ) + 2) : Grid) 2 2 :=
  calculate_fluxes_frame _ _ GAMMA_AIR 5 5 2 2 (by decide) (by decide) (Or.inl (by decide))

/-! ## C2: the per-call energy injection of the source -/

/-- C2 counterexample: on an all-ambient 4-row grid with inlet width 2,
emission rate 5 and velocity 3, the inlet cell `(1,0)` does not gain exactly
`AIR_ENERGY`: its energy becomes `2100`, not `1000 + 1000 = 2000`, because the
source adds `AIR_ENERGY + 100.0` per call. -/
theorem add_fluid_source_energy_counterexample :
    (add_fluid_source (fun _ _ => ambient_cell) 4 2 5 3 1 0).energy ≠
      ambient_cell.energy + AIR_ENERGY := by
  unfold add_fluid_source
  norm_num [ambient_cell, AIR_ENERGY]

/-- C2 (amended): each inlet-band cell at column 0 gains exactly
`AIR_ENERGY + 100.0 = 1100` energy per call — a constant injection independent
of the emission rate — in addition to `density += emission_rate` and
`momentum_x = fluid_velocity` (overwrite).  The band-fit bounds
restrict the statement to the calls the Rust source actually performs (no
`usize` underflow, no out-of-bounds row). -/
theorem add_fluid_source_spec (grid : Grid) (height width : ℕ)
    (emission_rate fluid_velocity : ℚ) (y : ℕ)
    (_hband : width / 2 ≤ height / 2) (_hfit : height / 2 + width / 2 ≤ height)
    (hy1 : height / 2 - width / 2 ≤ y) (hy2 : y < height / 2 + width / 2) :
    (add_fluid_source grid height width emission_rate fluid_velocity y 0).density
        = (grid y 0).density + emission_rate ∧
    (add_fluid_source grid height width emission_rate fluid_velocity y 0).momentum_x
        = fluid_velocity ∧
    (add_fluid_source grid height width emission_rate fluid_velocity y 0).energy
        = (grid y 0).energy + 1100 := by
  have hc : ((height / 2 - width / 2 ≤ y ∧ y < height / 2 + width / 2) ∧ (0 : ℕ) = 0) :=
    ⟨⟨hy1, hy2⟩, rfl⟩
  unfold add_fluid_source
  rw [if_pos hc]
  refine ⟨rfl, rfl, ?_⟩
  norm_num [AIR_ENERGY]

/-- Witness for C2 (amended): concrete instance with height 4, inlet width 2,
rate 5, velocity 3, at band row 1. -/
theorem add_fluid_source_spec_witness :
    (add_fluid_source (fun _ _ => ambient_cell) 4 2 5 3 1 0).density
        = ambient_cell.density + 5 ∧
    (add_fluid_source (fun _ _ => ambient_cell) 4 2 5 3 1 0).momentum_x = 3 ∧
    (add_fluid_source (fun _ _ => ambient_cell) 4 2 5 3 1 0).energy
        = ambient_cell.energy + 1100 :=
  add_fluid_source_spec (fun _ _ => ambient_cell) 4 2 5 3 1 (by decide) (by decide)
    (by decide) (by decide)

/-! ## C3: one tick on an all-ambient 10×10 grid -/

/-- C3: on a 10×10 all-ambient grid with an all-false solid mask, one
`calculate_fluxes` pass followed by `apply_boundary_conditions` leaves every
interior cell's density and energy unchanged and leaves both momentum
components zero at every cell of the grid. -/
theorem ambient_tick_invariant (y x : ℕ) (_hy : y < 10) (_hx : x < 10) :
    ((apply_boundary_conditions 10 10
        (calculate_fluxes (fun _ _ => ambient_cell) (fun _ _ => false) GAMMA_AIR 10 10))
        y x).momentum_x = 0 ∧
    ((apply_boundary_conditions 10 10
        (calculate_fluxes (fun _ _ => ambient_cell) (fun _ _ => false) GAMMA_AIR 10 10))
        y x).momentum_y = 0 ∧
    (1 ≤ y → y ≤ 8 → 1 ≤ x → x ≤ 8 →
      ((apply_boundary_conditions 10 10
          (calculate_fluxes (fun _ _ => ambient_cell) (fun _ _ => false) GAMMA_AIR 10 10))
          y x).density = ambient_cell.density ∧
      ((apply_boundary_conditions 10 10
          (calculate_fluxes (fun _ _ => ambient_cell) (fun _ _ => false) GAMMA_AIR 10 10))
          y x).energy = ambient_cell.energy) := by
  rw [calculate_fluxes_const, apply_boundary_conditions_const 10 10 ambient_cell rfl]
  exact ⟨rfl, rfl, fun _ _ _ _ => ⟨rfl, rfl⟩⟩

/-- Witness for C3: the interior cell (2,3) keeps its density, and cell (0,7)
has zero vertical momentum. -/
theorem ambient_tick_invariant_witness :
    ((apply_boundary_conditions 10 10
        (calculate_fluxes (fun _ _ => ambient_cell) (fun _ _ => false) GAMMA_AIR 10 10))
        2 3).density = ambient_cell.density ∧
    ((apply_boundary_conditions 10 10
        (calculate_fluxes (fun _ _ => ambient_cell) (fun _ _ => false) GAMMA_AIR 10 10))
        0 7).momentum_y = 0 :=
  ⟨((ambient_tick_invariant 2 3 (by decide) (by decide)).2.2 (by decide) (by decide)
      (by decide) (by decide)).1,
   (ambient_tick_invariant 0 7 (by decide) (by decide)).2.1⟩

/-! ## C4: the initial grid -/

/-- C4: for `width, height ≥ 3`, `initialize_grid` succeeds, every cell other
than the center `(width/2, height/2)` is ambient
(`density = AIR_DENSITY`, zero momenta, `energy = AIR_ENERGY`), and the center
cell is `⟨10, 0, 0, 1000⟩`. -/
theorem initialize_grid_spec (width height : ℕ) (hw : 3 ≤ width) (hh : 3 ≤ height) :
    initialize_grid width height = some (init_cells width height) ∧
    (∀ y < height, ∀ x < width, ¬(y = height / 2 ∧ x = width / 2) →
      init_cells width height y x = ambient_cell) ∧
    init_cells width height (height / 2) (width / 2) =
      { density := 10, momentum_x := 0, momentum_y := 0, energy := 1000 } := by
  refine ⟨?_, ?_, ?_⟩
  · unfold initialize_grid
    rw [if_pos]
    exact ⟨by omega, by omega⟩
  · intro y _ x _ hne
    unfold init_cells
    rw [if_neg hne]
  · unfold init_cells
    rw [if_pos ⟨rfl, rfl⟩]

/-- Witness for C4: the 5×5 grid, with the off-center cell (1,1) ambient. -/
theorem initialize_grid_spec_witness :
    initialize_grid 5 5 = some (init_cells 5 5) ∧ init_cells 5 5 1 1 = ambient_cell :=
  ⟨(initialize_grid_spec 5 5 (by decide) (by decide)).1,
   (initialize_grid_spec 5 5 (by decide) (by decide)).2.1 1 (by decide) 1 (by decide)
     (by decide)⟩

/-! ## C5: pressure of a cell at rest -/

/-- C5: for any cell with zero momentum and positive density,
`calculate_pressure cell gamma = (gamma - 1) * energy`. -/
theorem calculate_pressure_zero_momentum (cell : Cell) (gamma : ℚ)
    (hx : cell.momentum_x = 0) (hy : cell.momentum_y = 0) (_hd : 0 < cell.density) :
    calculate_pressure cell gamma = (gamma - 1) * cell.energy := by
  unfold calculate_pressure
  rw [hx, hy]
  norm_num

/-- Witness for C5: for `gamma = 1.4`, density `AIR_DENSITY`, energy `1000`,
zero momentum, the pressure is exactly `400` (hence within `1e-9` of it). -/
theorem calculate_pressure_zero_momentum_witness :
    calculate_pressure ambient_cell GAMMA_AIR = (GAMMA_AIR - 1) * ambient_cell.energy ∧
    calculate_pressure ambient_cell GAMMA_AIR = 400 :=
  ⟨calculate_pressure_zero_momentum ambient_cell GAMMA_AIR rfl rfl
     (by norm_num [ambient_cell, AIR_DENSITY]),
   by norm_num [calculate_pressure, ambient_cell, AIR_DENSITY, AIR_ENERGY, GAMMA_AIR]⟩

/-! ## C6: postconditions of the boundary enforcer -/

/-- C6: after `apply_boundary_conditions` on any grid with
`width, height ≥ 2`: every row has zero vertical momentum at columns `0` and
`width-1`, the top row's densities equal row 1's, and the bottom row's
densities equal row `height-2`'s. -/
theorem apply_boundary_conditions_spec (g : Grid) (width height : ℕ)
    (hw : 2 ≤ width) (hh : 2 ≤ height) :
    (∀ y < height,
      ((apply_boundary_conditions width height g) y 0).momentum_y = 0 ∧
      ((apply_boundary_conditions width height g) y (width - 1)).momentum_y = 0) ∧
    (∀ x < width,
      ((apply_boundary_conditions width height g) 0 x).density
        = ((apply_boundary_conditions width height g) 1 x).density ∧
      ((apply_boundary_conditions width height g) (height - 1) x).density
        = ((apply_boundary_conditions width height g) (height - 2) x).density) := by
  unfold apply_boundary_conditions
  set s := (List.range height).foldl (lrStep width) g with hs
  constructor
  · intro y hy
    constructor
    · rw [tbFold_in height s width y 0 (by omega)]
      by_cases hy0 : y = 0
      · subst hy0
        exact tbStep_top_my height s 0 hh
      by_cases hy1 : y = height - 1
      · subst hy1
        exact tbStep_bot_my height s 0 hh
      · rw [tbStep_mid height s 0 y hy0 hy1, hs,
          lrFold_in width g height y 0 hy]
        exact lrStep_left_my width g y hw
    · rw [tbFold_in height s width y (width - 1) (by omega)]
      by_cases hy0 : y = 0
      · subst hy0
        exact tbStep_top_my height s (width - 1) hh
      by_cases hy1 : y = height - 1
      · subst hy1
        exact tbStep_bot_my height s (width - 1) hh
      · rw [tbStep_mid height s (width - 1) y hy0 hy1, hs,
          lrFold_in width g height y (width - 1) hy]
        exact lrStep_right_my width g y hw
  · intro x hx
    rw [tbFold_in height s width 0 x hx, tbFold_in height s width 1 x hx,
      tbFold_in height s width (height - 1) x hx,
      tbFold_in height s width (height - 2) x hx]
    by_cases hh2 : height = 2
    · subst hh2
      norm_num
      constructor
      · rw [tbStep_top_density 2 s x (by omega), tbStep_bot_density_two s x]
      · rw [tbStep_top_density 2 s x (by omega), tbStep_bot_density_two s x]
    · have h3 : 3 ≤ height := by omega
      constructor
      · rw [tbStep_top_density height s x hh,
          tbStep_mid height s x 1 (by omega) (by omega)]
      · rw [tbStep_bot_density height s x h3,
          tbStep_mid height s x (height - 2) (by omega) (by omega)]

/-- Witness for C6: a concrete non-uniform 3×3 grid, checked at row 1 /
column 1. -/
theorem apply_boundary_conditions_spec_witness :
    ((apply_boundary_conditions 3 3 (fun y x => Cell.mk ((y : ℚ) + (x : ℚ)) (y : ℚ)
        ((x : ℚ) + 1) 1)) 1 0).momentum_y = 0 ∧
    ((apply_boundary_conditions 3 3 (fun y x => Cell.mk ((y : ℚ) + (x : ℚ)) (y : ℚ)
        ((x : ℚ) + 1) 1)) 0 1).density
      = ((apply_boundary_conditions 3 3 (fun y x => Cell.mk ((y : ℚ) + (x : ℚ)) (y : ℚ)
          ((x : ℚ) + 1) 1)) 1 1).density :=
  ⟨((apply_boundary_conditions_spec _ 3 3 (by decide) (by decide)).1 1 (by decide)).1,
   ((apply_boundary_conditions_spec _ 3 3 (by decide) (by decide)).2 1 (by decide)).1⟩

/-! ## C7: source injection is additive in density, overwriting in momentum -/

/-- C7: two `add_fluid_source` calls with the same emission rate `r` on an
all-ambient grid leave every inlet-band cell at column 0 with density
`AIR_DENSITY + 2r` (linear accumulation) and momentum_x exactly the inlet
velocity (overwritten, not accumulated).  The band-fit bounds
restrict the statement to the calls the Rust source actually performs (no
`usize` underflow, no out-of-bounds row). -/
theorem add_fluid_source_twice (height width : ℕ) (r v : ℚ) (y : ℕ)
    (_hband : width / 2 ≤ height / 2) (_hfit : height / 2 + width / 2 ≤ height)
    (hy1 : height / 2 - width / 2 ≤ y) (hy2 : y < height / 2 + width / 2) :
    ((add_fluid_source (add_fluid_source (fun _ _ => ambient_cell) height width r v)
        height width r v) y 0).density = AIR_DENSITY + 2 * r ∧
    ((add_fluid_source (add_fluid_source (fun _ _ => ambient_cell) height width r v)
        height width r v) y 0).momentum_x = v := by
  have hc : ((height / 2 - width / 2 ≤ y ∧ y < height / 2 + width / 2) ∧ (0 : ℕ) = 0) :=
    ⟨⟨hy1, hy2⟩, rfl⟩
  unfold add_fluid_source
  rw [if_pos hc, if_pos hc]
  refine ⟨?_, rfl⟩
  show ambient_cell.density + r + r = AIR_DENSITY + 2 * r
  unfold ambient_cell
  ring

/-- Witness for C7: height 4, inlet width 2, rate 5, velocity 3, band row 1. -/
theorem add_fluid_source_twice_witness :
    ((add_fluid_source (add_fluid_source (fun _ _ => ambient_cell) 4 2 5 3) 4 2 5 3)
        1 0).density = AIR_DENSITY + 2 * 5 ∧
    ((add_fluid_source (add_fluid_source (fun _ _ => ambient_cell) 4 2 5 3) 4 2 5 3)
        1 0).momentum_x = 3 :=
  add_fluid_source_twice 4 2 5 3 1 (by decide) (by decide) (by decide) (by decide)

/-! ## C8: the block obstacle -/

/-- C8 counterexample: on a 3×3 grid (which satisfies `width, height ≥ 3`)
`create_solid_object` does not run without out-of-bounds access: its very
first write `solid_object[20][30]` is out of bounds (modelled `none`). -/
theorem create_solid_object_oob : create_solid_object 3 3 = none := rfl

/-- C8 (amended): `create_solid_object` always targets the fixed rectangle
rows 20–39, columns 30–49 (it does not scale with the grid); it runs without
out-of-bounds access exactly when `width ≥ 50` and `height ≥ 40`, and then the
returned mask is true precisely on that rectangle. -/
theorem create_solid_object_spec (width height : ℕ) (hw : 50 ≤ width) (hh : 40 ≤ height) :
    ∃ mask, create_solid_object width height = some mask ∧
      ∀ y x, mask y x = true ↔ ((20 ≤ y ∧ y < 40) ∧ (30 ≤ x ∧ x < 50)) := by
  refine ⟨fun y x => decide ((20 ≤ y ∧ y < 40) ∧ (30 ≤ x ∧ x < 50)), ?_, ?_⟩
  · unfold create_solid_object
    rw [if_pos ⟨hw, hh⟩]
  · intro y x
    simp

/-- Witness for C8 (amended): the 80×60 grid used by `main`, with the mask
checked at an inside and an outside point. -/
theorem create_solid_object_spec_witness :
    ∃ mask, create_solid_object 80 60 = some mask ∧
      ∀ y x, mask y x = true ↔ ((20 ≤ y ∧ y < 40) ∧ (30 ≤ x ∧ x < 50)) :=
  create_solid_object_spec 80 60 (by decide) (by decide)

/-! ## C9: no fail-fast on undersized dimensions -/

/-- C9 counterexample: `initialize_grid 1 1` — dimensions below 3 in both
axes — does return a grid, so construction does not fail fast. -/
theorem initialize_grid_returns_undersized :
    initialize_grid 1 1 = some (init_cells 1 1) := rfl

/-- C9 (amended): `initialize_grid` performs no dimension validation: it
returns a grid exactly when `width ≥ 1` and `height ≥ 1` (the center write is
in bounds); in particular every undersized grid with both dimensions at least
1 is constructed and handed to the driver. -/
theorem initialize_grid_no_fail_fast (width height : ℕ) :
    (initialize_grid width height).isSome ↔ 1 ≤ width ∧ 1 ≤ height := by
  unfold initialize_grid
  by_cases h : height / 2 < height ∧ width / 2 < width
  · rw [if_pos h]
    simp only [Option.isSome_some, true_iff]
    omega
  · rw [if_neg h]
    simp only [Option.isSome_none, Bool.false_eq_true, false_iff]
    omega

/-! ## C10: interactive injection (modelled from the spec) -/

/-- C10: `inject 5 5 100 (10, 0)` on the freshly initialized 80×60 grid adds
exactly 100 to the density of cell (5,5), adds 10 to its momentum_x and 0 to
its momentum_y, keeps its energy, and leaves every other cell unchanged. -/
theorem inject_spec :
    ((inject (init_cells 80 60) 5 5 100 (10, 0)) 5 5).density
        = ((init_cells 80 60) 5 5).density + 100 ∧
    ((inject (init_cells 80 60) 5 5 100 (10, 0)) 5 5).momentum_x
        = ((init_cells 80 60) 5 5).momentum_x + 10 ∧
    ((inject (init_cells 80 60) 5 5 100 (10, 0)) 5 5).momentum_y
        = ((init_cells 80 60) 5 5).momentum_y + 0 ∧
    ((inject (init_cells 80 60) 5 5 100 (10, 0)) 5 5).energy
        = ((init_cells 80 60) 5 5).energy ∧
    ∀ y x, ¬(y = 5 ∧ x = 5) →
      (inject (init_cells 80 60) 5 5 100 (10, 0)) y x = (init_cells 80 60) y x := by
  refine ⟨rfl, rfl, rfl, rfl, ?_⟩
  intro y x h
  unfold inject
  rw [if_neg h]

/-- Witness for C10: the unchanged-elsewhere clause at the concrete cell
(2,3). -/
theorem inject_spec_witness :
    (inject (init_cells 80 60) 5 5 100 (10, 0)) 2 3 = (init_cells 80 60) 2 3 :=
  inject_spec.2.2.2.2 2 3 (by decide)

end FluidSim
